import Mathlib

/-!
# Verification of the nexus-smart-scraper orchestration core

A shallow embedding, in Lean 4, of the pure decision logic of the
nexus-smart-scraper repository: the orchestrator audit parsing and gap-fill
wait loop (`src/ai/orchestrator.py`), the adaptive scheduler feedback rule and
the scrape/enrich task pipeline (`src/scraper/tasks.py`), the sitemap scoring
heuristic (`src/scraper/discovery.py`), the LLM provider waterfall
(`src/ai/client.py`) and the semantic memory lookup (`src/ai/memory.py`).

Python strings are modelled as `List Char` (`PyStr`), so that every
definition is executable and concrete instances can be settled by `decide`.
External collaborators (network fetches, the LLM backends, the SQL engine)
are modelled as explicit parameters: an LLM completion is an `Option PyStr`,
a fallible call is an `Except` value, and database tables are explicit lists
of rows threaded through each operation.
-/

namespace NexusScraper

/-! ### Python string primitives over `List Char` -/

/-- A Python string, modelled as its list of characters. -/
abbrev PyStr := List Char

/-- Python `str.strip()`: drop whitespace from both ends. -/
def pyStrip (s : PyStr) : PyStr :=
  ((s.dropWhile Char.isWhitespace).reverse.dropWhile Char.isWhitespace).reverse

/-- Python `str.upper()` (ASCII case of interest here). -/
def pyUpper (s : PyStr) : PyStr := s.map Char.toUpper

/-- Python `str.lower()` (ASCII case of interest here). -/
def pyLower (s : PyStr) : PyStr := s.map Char.toLower

/-- Python `str.split(sep)` for a single-character separator: splits at every
occurrence, keeping empty pieces. -/
def pySplit (sep : Char) (s : PyStr) : List PyStr :=
  s.foldr
    (fun c acc =>
      if c = sep then [] :: acc
      else match acc with
        | [] => [[c]]
        | h :: t => (c :: h) :: t)
    [[]]

/-- Python `needle in hay` substring containment. -/
def containsSub (needle : PyStr) : PyStr → Bool
  | [] => needle.isEmpty
  | c :: rest => needle.isPrefixOf (c :: rest) || containsSub needle rest

/-! ### Audit phase (`Orchestrator.phase_1_audit`, orchestrator.py 104-148) -/

/-- The dictionary returned by `Orchestrator.phase_1_audit`. -/
structure AuditResult where
  sufficient : Bool
  queries : List PyStr
deriving DecidableEq, Repr

/-- Embeds the response-parsing tail of `Orchestrator.phase_1_audit`
(orchestrator.py 138-148).  The LLM completion `self.brain.chat(...)` is an
external text-completion capability (`text | null`), passed in as
`response : Option PyStr`; `none` models a null/failed completion.

Python source being embedded:
`if not response: return ...[user_prompt]`;
`lines = [l.strip() for l in response.split('\n') if l.strip()]`;
empty `lines` falls back to `[user_prompt]`;
`lines[0].upper().startswith("YES")` yields sufficient with no queries;
otherwise `queries = [q for q in lines[1:] if len(q) > 3][:3]`, falling back
to `[user_prompt]` when empty. -/
def phase_1_audit (userPrompt : PyStr) (response : Option PyStr) : AuditResult :=
  match response with
  | none => ⟨false, [userPrompt]⟩
  | some r =>
    let lines := ((pySplit '\n' r).filter (fun l => !(pyStrip l).isEmpty)).map pyStrip
    match lines with
    | [] => ⟨false, [userPrompt]⟩
    | l0 :: rest =>
      if ("YES".toList).isPrefixOf (pyUpper l0) then ⟨true, []⟩
      else
        let queries := (rest.filter (fun q => 3 < q.length)).take 3
        if queries.isEmpty then ⟨false, [userPrompt]⟩
        else ⟨false, queries⟩

/-- The audit parsing contract as the specification words it: the non-empty
(after stripping) lines of the response decide the result.  Null or blank
response: insufficient with the original prompt as sole query; first
non-empty line starting case-insensitively with YES: sufficient, no queries;
otherwise the subsequent non-empty lines of length greater than 3, truncated
to the first 3, falling back to the original prompt when none survive. -/
def audit_spec (userPrompt : PyStr) (response : Option PyStr) : AuditResult :=
  match response with
  | none => ⟨false, [userPrompt]⟩
  | some r =>
    match (pySplit '\n' r).map pyStrip |>.filter (fun l => !l.isEmpty) with
    | [] => ⟨false, [userPrompt]⟩
    | first :: later =>
      if ("YES".toList).isPrefixOf (pyUpper first) then ⟨true, []⟩
      else
        let surviving := (later.filter (fun q => 3 < q.length)).take 3
        ⟨false, if surviving.isEmpty then [userPrompt] else surviving⟩

/-! ### Adaptive scheduler feedback rule (`adjust_schedule`, tasks.py 464-475) -/

/-- Embeds `adjust_schedule` (tasks.py 464-475), returning the new value of
`job.interval_seconds`.  Python computes `int(current_interval * 0.95)` and
`int(current_interval * 1.5)` through floats; for the nonnegative integer
intervals involved the double rounding never crosses an integer boundary, so
these equal the integer floors `current * 19 / 20` and `current * 3 / 2`. -/
def adjust_schedule (urgency : Int) (hasNewContent : Bool) (currentInterval : Nat) : Nat :=
  if hasNewContent then
    if 8 ≤ urgency then 300
    else if 5 ≤ urgency then 1800
    else max 3600 (currentInterval * 19 / 20)
  else
    min 86400 (currentInterval * 3 / 2)

/-! ### Gap-fill wait loop (`Orchestrator.phase_2_gap_fill`, orchestrator.py 171-188)

The polling loop `for i in range(40)` checks the store each iteration:
`processed_count` counts dispatched URLs whose `ai_status` is COMPLETED;
the loop breaks when `processed_count >= len(unique_urls)` or when
`processed_count > 0 and i > 20`, and otherwise sleeps 3 seconds.  We model
the store observation at iteration `i` as `completed i` (the number of
dispatched URLs observed COMPLETED at that poll) and compute the iteration
index at which the loop breaks early, `none` when it runs all 40 polls. -/

/-- One pass of the wait loop from iteration `i` with `fuel` polls left:
returns the index of the first early exit, `none` if fuel runs out. -/
def gapFillFrom (n : Nat) (completed : Nat → Nat) : Nat → Nat → Option Nat
  | 0, _ => none
  | fuel + 1, i =>
    if n ≤ completed i then some i
    else if 0 < completed i && 20 < i then some i
    else gapFillFrom n completed fuel (i + 1)

/-- Embeds the wait loop of `phase_2_gap_fill` for `n` dispatched URLs:
the iteration (0-indexed, as Python `range(40)`) at which the loop breaks
early, `none` when all 40 polls run without an early exit. -/
def gapFillExit (n : Nat) (completed : Nat → Nat) : Option Nat :=
  gapFillFrom n completed 40 0

/-- The early-exit condition exactly as the code tests it at poll `i`:
all `n` URLs completed, or some URL completed and more than 20 iterations
have elapsed (`i > 20`). -/
def gapFillBreak (n : Nat) (completed : Nat → Nat) (i : Nat) : Bool :=
  decide (n ≤ completed i) || (decide (0 < completed i) && decide (20 < i))

/-- The early-exit condition as the claim words it: all `n` URLs completed,
or some URL completed and at least 20 iterations (60 s of 3-second sleeps)
have elapsed before this poll (`i ≥ 20`). -/
def gapFillBreakClaim (n : Nat) (completed : Nat → Nat) (i : Nat) : Bool :=
  decide (n ≤ completed i) || (decide (0 < completed i) && decide (20 ≤ i))

/-- The store observation of the claim's concrete scenario: 5 dispatched
URLs, exactly one COMPLETED from iteration 21 onward, none before, and no
others ever complete. -/
def scenarioOneOf5 (i : Nat) : Nat := if 21 ≤ i then 1 else 0

/-! ### Source promotion (`Orchestrator._promote_sources`, orchestrator.py 30-102) -/

/-- `JobType` enum (models.py 73-76). -/
inductive PyJobType where
  | rss
  | discovery
  | single
deriving DecidableEq, Repr

/-- A `ScheduledJob` row, the fields `_promote_sources` reads and writes. -/
structure Job where
  name : PyStr
  url : PyStr
  jobType : PyJobType
  intervalSeconds : Nat
  itemsLimit : Nat
  isActive : Bool
deriving DecidableEq, Repr

/-- A `Source` row, the fields `_promote_sources` reads and writes. -/
structure Src where
  domain : PyStr
  robotsUrl : PyStr
deriving DecidableEq, Repr

/-- The database state seen by the promotion phase. -/
structure PromoState where
  jobs : List Job
  sources : List Src
deriving DecidableEq, Repr

/-- `urlparse(url).scheme`: the part before `://`, empty when absent. -/
def urlScheme (u : PyStr) : PyStr :=
  if containsSub (":".toList) u then u.takeWhile (fun c => c ≠ ':') else []

/-- Scanner for `urlNetloc`: find the first `//` and take the authority that
follows it. -/
def urlNetlocGo : PyStr → PyStr
  | [] => []
  | '/' :: '/' :: rest => rest.takeWhile (fun c => c ∉ ['/', '?', '#'])
  | _ :: rest => urlNetlocGo rest

/-- `urlparse(url).netloc`: the authority after `scheme://`, up to the next
`/`, `?` or `#`; empty when the URL has no `//` part. -/
def urlNetloc (u : PyStr) : PyStr := urlNetlocGo u

/-- The existence query of `_promote_sources` (orchestrator.py 63-66): a job
matches when `job_type == JobType.DISCOVERY` and its URL contains the domain
as a substring — the query does not filter on `is_active`. -/
def jobMatches (domain : PyStr) (j : Job) : Bool :=
  j.jobType = PyJobType.discovery && containsSub domain j.url

/-- Embeds the per-article body of `Orchestrator._promote_sources`
(orchestrator.py 49-95): extract the domain (skip when empty); skip when a
DISCOVERY-type `ScheduledJob` whose URL contains the domain exists (the query
filters only on `job_type` and `url.contains` — not on `is_active`);
otherwise create the `Source` row if missing and add a new active DISCOVERY
job with `interval_seconds=86400` and `items_limit=5`. -/
def promote_one (st : PromoState) (articleUrl : PyStr) : PromoState :=
  if articleUrl.isEmpty then st
  else
    let domain := urlNetloc articleUrl
    if domain.isEmpty then st
    else if st.jobs.any (jobMatches domain) then st
    else
      let sources :=
        if st.sources.any (fun s => s.domain = domain) then st.sources
        else st.sources ++ [⟨domain, urlScheme articleUrl ++ "://".toList ++ domain ++ "/robots.txt".toList⟩]
      let jobUrl := urlScheme articleUrl ++ "://".toList ++ domain
      { jobs := st.jobs ++
          [⟨"Auto-Discovery: ".toList ++ domain, jobUrl, PyJobType.discovery, 86400, 5, true⟩],
        sources := sources }

/-- `_promote_sources` over the fetched article URLs, in order.  SQLAlchemy
autoflush makes a job added for an earlier article visible to the existence
query for a later one, so the state threads through the loop. -/
def promote_sources (st : PromoState) (articleUrls : List PyStr) : PromoState :=
  articleUrls.foldl promote_one st

/-! ### Sitemap scoring (`score_sitemap` and `fetch_sitemaps`, discovery.py 39-87) -/

/-- `PRIORITY_TERMS` (discovery.py 15). -/
def PRIORITY_TERMS : List PyStr :=
  ["news".toList, "en-us".toList, "uk".toList, "world".toList,
   "front-page".toList, "top".toList]

/-- `SKIP_TERMS` (discovery.py 17-21). -/
def SKIP_TERMS : List PyStr :=
  ["gahuza".toList, "arabic".toList, "hindi".toList, "urdu".toList,
   "pashto".toList, "mundo".toList, "brasil".toList, "russian".toList,
   "turkish".toList, "vietnamese".toList, "bengali".toList, "tamil".toList,
   "nepali".toList, "zhongwen".toList, "indonesia".toList]

/-- Embeds `score_sitemap` (discovery.py 39-51): on the lowercased URL,
+100 for a news-sitemap marker, +10 per priority term contained, -1000 per
skip term contained. -/
def score_sitemap (url : PyStr) : Int :=
  let ul := pyLower url
  let base : Int :=
    if containsSub ("sitemap-news".toList) ul || containsSub ("news-sitemap".toList) ul
    then 100 else 0
  let withPriority := PRIORITY_TERMS.foldl
    (fun s term => if containsSub term ul then s + 10 else s) base
  SKIP_TERMS.foldl
    (fun s term => if containsSub term ul then s - 1000 else s) withPriority

/-- Embeds the ranking tail of `fetch_sitemaps` (discovery.py 81-87) on the
set of candidate sitemap URLs gathered from robots.txt or the guessed
conventional paths: sort descending by score, then keep only scores above
-500.  Python `sorted(..., key=score_sitemap, reverse=True)` is a stable
descending sort; `List.insertionSort` with the "score at least as large"
relation is the same stable descending order. -/
def fetch_sitemaps_rank (candidates : List PyStr) : List PyStr :=
  (candidates.insertionSort (fun a b => score_sitemap b ≤ score_sitemap a)).filter
    (fun s => -500 < score_sitemap s)

/-! ### Scrape and enrich tasks (`scrape_task` and `enrich_task`, tasks.py 81-260) -/

/-- `AIStatus` enum (models.py 9-13). -/
inductive PyAIStatus where
  | pending
  | processing
  | completed
  | failed
deriving DecidableEq, Repr

/-- A `ScrapedData` row as `scrape_task`/`enrich_task` touch it: `payload`
abstracts the extracted fields written by `update_data` (title, author,
clean_text, ...), so two saves with different payloads are distinguishable. -/
structure Row where
  id : Nat
  url : PyStr
  aiStatus : PyAIStatus
  payload : Nat
deriving DecidableEq, Repr

/-- `db.query(ScrapedData).filter(ScrapedData.url == url).first()`. -/
def findByUrl (tbl : List Row) (url : PyStr) : Option Row :=
  tbl.find? (fun r => r.url = url)

/-- Embeds the save section of `scrape_task` (tasks.py 137-176) as one
database step, taking the record lookup the task performed earlier as
`observed` (under concurrency it may be stale).  An observed existing record
is updated in place (`ai_status` reset to PENDING, same row).  With no
observed record a fresh row is inserted; if the unique `url` constraint is
violated because a concurrent insert won, the database raises
`IntegrityError`, the generic `except` handler (tasks.py 172-176) rolls back
and the task returns `None`.  Returns the new table and the task's return
value (`row_id` or `None`). -/
def scrape_save (tbl : List Row) (url : PyStr) (payload : Nat) (freshId : Nat)
    (observed : Option Row) : List Row × Option Nat :=
  match observed with
  | some r =>
    (tbl.map (fun row => if row.id = r.id
        then { row with aiStatus := PyAIStatus.pending, payload := payload }
        else row),
     some r.id)
  | none =>
    if tbl.any (fun row => row.url = url) then (tbl, none)
    else (tbl ++ [⟨freshId, url, PyAIStatus.pending, payload⟩], some freshId)

/-- Embeds the `Source` registration of `scrape_task` (tasks.py 93-106) for
one domain: no existing `Source` row leads to an insert; a concurrent winner
makes the insert raise `IntegrityError`, which this code (unlike the article
save) catches, rolls back, and re-reads the winner's row. -/
def register_source (sources : List Src) (domain robotsUrl : PyStr)
    (observed : Option Src) : List Src × Option Src :=
  match observed with
  | some s => (sources, some s)
  | none =>
    if sources.any (fun s => s.domain = domain) then
      (sources, sources.find? (fun s => s.domain = domain))
    else
      let fresh : Src := ⟨domain, robotsUrl⟩
      (sources ++ [fresh], some fresh)

/-- Embeds the control flow of `scrape_task` (tasks.py 81-178) over the
articles table: `allowed` is `is_allowed(url)` (the robots-policy
collaborator, `src/scraper/compliance.py`), `fetched` the outcome of
`fetch_url` after its tenacity retries, `parsed` the outcome of
`parse_smart`.  A disallowed URL, a fetch failure, or a parse exception
(reaching the outer `except`) all return `None` and leave the articles table
unchanged; otherwise the save section runs. -/
def scrape_task (tbl : List Row) (url : PyStr) (allowed : Bool)
    (fetched : Except Unit Unit) (parsed : Except Unit Nat)
    (freshId : Nat) : List Row × Option Nat :=
  if !allowed then (tbl, none)
  else
    match fetched with
    | Except.error _ => (tbl, none)
    | Except.ok _ =>
      match parsed with
      | Except.error _ => (tbl, none)
      | Except.ok payload => scrape_save tbl url payload freshId (findByUrl tbl url)

/-- The analysis outcome `brain.analyze_article` hands to `enrich_task`:
`none` models "AI returned no data". -/
structure AiData where
  urgency : Int
deriving DecidableEq, Repr

/-- Embeds `enrich_task` (tasks.py 183-260).  Python checks
`if not article_id: return "Skipped (No ID)"` before opening a session, so a
null (or zero) id performs no work; otherwise the article is looked up and
enriched: status PROCESSING, then COMPLETED with the analysis data or FAILED
when the analysis returns no data.  Returns the new table and the task's
return string. -/
def enrich_task (tbl : List Row) (articleId : Option Nat)
    (analysis : Option AiData) : List Row × PyStr :=
  match articleId with
  | none => (tbl, "Skipped (No ID)".toList)
  | some i =>
    if i = 0 then (tbl, "Skipped (No ID)".toList)
    else
      match tbl.find? (fun r => r.id = i) with
      | none => (tbl, "Article not found".toList)
      | some r =>
        if r.aiStatus = PyAIStatus.completed then (tbl, "Already Completed".toList)
        else
          match analysis with
          | some _ =>
            (tbl.map (fun row => if row.id = i
                then { row with aiStatus := PyAIStatus.completed } else row),
             "Enrichment Success".toList)
          | none =>
            (tbl.map (fun row => if row.id = i
                then { row with aiStatus := PyAIStatus.failed } else row),
             "Enrichment Success".toList)

/-! ### LLM provider waterfall (`Brain.analyze_article`, client.py 35-85) -/

/-- The outcome of one provider strategy call (`strategy_func`): it raises
(missing credentials raise `ValueError` before any network call, network and
HTTP failures raise inside the call) or returns raw text (possibly empty). -/
inductive Attempt where
  | raises
  | returns (raw : PyStr)
deriving DecidableEq, Repr

/-- Embeds `Brain._clean_json` (client.py 18-33): null/empty text yields no
data, otherwise the strict `json.loads` followed by the lenient
regex-extract fallback, abstracted as `parse`. -/
def clean_json {J : Type} (parse : PyStr → Option J) (raw : PyStr) : Option J :=
  if raw.isEmpty then none else parse raw

/-- Embeds the waterfall loop of `Brain.analyze_article` (client.py 54-85):
providers are attempted in the fixed priority order of the list built in
`Brain.__init__`; a raised exception continues to the next provider; truthy
raw text is cleaned, a successful parse returns immediately, a failed parse
continues; the loop falling through returns `None`. -/
def analyze_article {J : Type} (parse : PyStr → Option J) : List Attempt → Option J
  | [] => none
  | Attempt.raises :: rest => analyze_article parse rest
  | Attempt.returns raw :: rest =>
    if !raw.isEmpty then
      match clean_json parse raw with
      | some j => some j
      | none => analyze_article parse rest
    else analyze_article parse rest

/-- The provider priority order fixed by `Brain.__init__` (client.py 10-16). -/
def providerOrder : List PyStr :=
  ["avalai".toList, "cloudflare".toList, "cohere".toList,
   "openrouter".toList, "local".toList]

/-- A provider attempt failed: it raised, or its text (empty included)
yielded no JSON under strict-then-lenient extraction. -/
def attemptFailed {J : Type} (parse : PyStr → Option J) : Attempt → Prop
  | Attempt.raises => True
  | Attempt.returns raw => clean_json parse raw = none

/-! ### Semantic memory lookup (`search_memory`, memory.py 7-34) -/

/-- Embeds `search_memory` (memory.py 7-34).  `embedRes` is the outcome of
`brain.generate_embedding(query)` (a vector of abstract components `R`, or
null); `queryRes` the outcome of the vector-similarity query returning rows
of abstract type `A`.  A null or empty vector returns `[]`; an exception
anywhere in the `try` is caught and returns `[]`; the session is closed by
`finally` in every case.  Returns the caught result paired with the
session-closed flag. -/
def search_memory {R A : Type} (embedRes : Option (List R))
    (queryRes : Except Unit (List A)) : Except Unit (List A) × Bool :=
  let body : Except Unit (List A) :=
    match embedRes with
    | none => Except.ok []
    | some v => if v.isEmpty then Except.ok [] else queryRes
  match body with
  | Except.ok l => (Except.ok l, true)
  | Except.error _ => (Except.ok [], true)

/-! ### Orchestrator run (`Orchestrator.run`, orchestrator.py 220-252) and
its Celery wrapper (`generate_content_task`, tasks.py 484-495) -/

/-- `GeneratedContentStatus` enum (models.py 95-98). -/
inductive TaskStatus where
  | processing
  | completed
  | failed
deriving DecidableEq, Repr

/-- The `GeneratedContent` row fields `Orchestrator.run` mutates through
`_update_status` (orchestrator.py 17-28). -/
structure TaskRow where
  status : TaskStatus
  generatedText : Option PyStr
  searchQueries : Option (List PyStr)
  usedArticleIds : Option (List Nat)
deriving DecidableEq, Repr

/-- The outcomes of the phases `run` calls inside its `try`, each an
`Except` whose error carries the exception message `str(e)`:
`audit` for `phase_1_audit`, `gapFill` for `phase_2_gap_fill`, `synthesis`
for `phase_3_synthesis` (whose value may be null when `brain.chat` returns
null), `usedIds` for the final `search_memory` id listing, and `promote` for
`_promote_sources` (whose own commit failures are caught internally, but an
exception escaping it is caught by `run`). -/
structure RunEnv where
  audit : Except PyStr AuditResult
  gapFill : Except PyStr Unit
  synthesis : Except PyStr (Option PyStr)
  usedIds : Except PyStr (List Nat)
  promote : Except PyStr Unit
deriving Repr

/-- Embeds `Orchestrator.run` (orchestrator.py 220-252) acting on an
existing `GeneratedContent` row: the phases run in order inside `try`, and
any exception reaches the `except` clause which sets status FAILED with the
exception message as `generated_text`. -/
def orchestrator_run (row : TaskRow) (env : RunEnv) : TaskRow :=
  match env.audit with
  | Except.error e => { row with status := TaskStatus.failed, generatedText := some e }
  | Except.ok audit =>
    let row1 :=
      if audit.sufficient then row
      else { row with
              status := TaskStatus.processing,
              searchQueries := some audit.queries,
              generatedText := some ("Hunting for new data...".toList) }
    let gapRes := if audit.sufficient then Except.ok () else env.gapFill
    match gapRes with
    | Except.error e => { row1 with status := TaskStatus.failed, generatedText := some e }
    | Except.ok _ =>
      let row2 := { row1 with
                     status := TaskStatus.processing,
                     generatedText := some ("Synthesizing final answer...".toList) }
      match env.synthesis with
      | Except.error e => { row2 with status := TaskStatus.failed, generatedText := some e }
      | Except.ok finalText =>
        match env.usedIds with
        | Except.error e => { row2 with status := TaskStatus.failed, generatedText := some e }
        | Except.ok ids =>
          let row3 := { row2 with
                         status := TaskStatus.completed,
                         generatedText := finalText,
                         usedArticleIds := some ids }
          if finalText.elim false (fun t => !t.isEmpty) && !ids.isEmpty then
            match env.promote with
            | Except.error e =>
              { row3 with status := TaskStatus.failed, generatedText := some e }
            | Except.ok _ => row3
          else row3

/-- The number of arguments `Orchestrator.run` accepts besides `self`:
`def run(self, user_prompt, max_sources)` (orchestrator.py 220). -/
def run_param_count : Nat := 2

/-- The number of positional arguments the Celery wrapper passes:
`orchestrator.run(user_prompt, max_sources, model_id, use_judge)`
(tasks.py 494). -/
def wrapper_arg_count : Nat := 4

/-- Embeds `generate_content_task` (tasks.py 484-495): the wrapper builds the
orchestrator and calls `orchestrator.run`.  Python raises `TypeError` at the
call site when the argument count does not match the parameter count, before
the body of `run` (and hence its `try`/`except`) ever executes; the wrapper
itself has no handler, so that exception escapes and the row is untouched.
Returns the final state of the `GeneratedContent` row together with the
uncaught exception, if any, escaping the Celery task. -/
def generate_content_task (row : TaskRow) (env : RunEnv) : TaskRow × Except PyStr Unit :=
  if wrapper_arg_count = run_param_count then (orchestrator_run row env, Except.ok ())
  else (row, Except.error ("TypeError: run takes 3 positional arguments but 5 were given".toList))

/-! ## Helper lemmas -/

/-- Filter-before-map and map-before-filter agree for the audit line
normalisation. -/
theorem audit_lines_eq (s : PyStr) :
    ((pySplit '\n' s).filter (fun l => !(pyStrip l).isEmpty)).map pyStrip
      = ((pySplit '\n' s).map pyStrip).filter (fun l => !l.isEmpty) := by
  rw [List.filter_map]
  rfl

/-- One pass of the wait loop is an if on the break test. -/
theorem gapFillFrom_succ (n : Nat) (completed : Nat → Nat) (k i : Nat) :
    gapFillFrom n completed (k + 1) i
      = if gapFillBreak n completed i then some i
        else gapFillFrom n completed k (i + 1) := by
  have lhs : gapFillFrom n completed (k + 1) i
      = if n ≤ completed i then some i
        else if (decide (0 < completed i) && decide (20 < i)) = true then some i
        else gapFillFrom n completed k (i + 1) := rfl
  rw [lhs]
  unfold gapFillBreak
  by_cases h1 : n ≤ completed i
  · simp [h1]
  · by_cases h2 : 0 < completed i
    · by_cases h3 : 20 < i
      · simp [h1, h2, h3]
      · simp [h1, h2, h3]
    · simp [h1, h2]

/-- The wait loop's early-exit iteration is the first poll index in `0..39`
satisfying the break test. -/
theorem gapFillExit_eq_find (n : Nat) (completed : Nat → Nat) :
    gapFillExit n completed = (List.range 40).find? (gapFillBreak n completed) := by
  rw [List.range_eq_range']
  show gapFillFrom n completed 40 0 = _
  have key : ∀ (fuel i : Nat),
      gapFillFrom n completed fuel i
        = (List.range' i fuel).find? (gapFillBreak n completed) := by
    intro fuel
    induction fuel with
    | zero => intro i; rfl
    | succ k ih =>
      intro i
      rw [List.range'_succ, List.find?_cons, gapFillFrom_succ]
      cases hb : gapFillBreak n completed i with
      | true => simp [hb]
      | false => simp [hb, ih (i + 1)]
  exact key 40 0

/-- Every list is a Boolean prefix of itself. -/
theorem isPrefixOf_self (l : PyStr) : l.isPrefixOf l = true := by
  induction l with
  | nil => rfl
  | cons c t ih => simp [List.isPrefixOf, ih]

/-- A string contains itself as a substring. -/
theorem containsSub_self (needle : PyStr) : containsSub needle needle = true := by
  cases needle with
  | nil => rfl
  | cons c t =>
    unfold containsSub
    rw [isPrefixOf_self]
    rfl

/-- A string contains any of its suffixes as a substring. -/
theorem containsSub_append (pre needle : PyStr) :
    containsSub needle (pre ++ needle) = true := by
  induction pre with
  | nil => simpa using containsSub_self needle
  | cons c t ih =>
    show (needle.isPrefixOf (c :: (t ++ needle)) || containsSub needle (t ++ needle)) = true
    rw [ih]
    simp

/-- Each contained priority term adds 10: the bonus fold is bounded by 10
per term. -/
theorem foldl_bonus_le (ul : PyStr) (terms : List PyStr) (s : Int) :
    terms.foldl (fun acc term => if containsSub term ul then acc + 10 else acc) s
      ≤ s + 10 * terms.length := by
  induction terms generalizing s with
  | nil => simp
  | cons t ts ih =>
    simp only [List.foldl_cons, List.length_cons]
    by_cases h : containsSub t ul = true
    · rw [if_pos h]
      have := ih (s + 10)
      push_cast
      push_cast at this
      omega
    · rw [if_neg h]
      have := ih s
      push_cast
      push_cast at this
      omega

/-- The skip-term fold never increases the score. -/
theorem foldl_malus_le (ul : PyStr) (terms : List PyStr) (s : Int) :
    terms.foldl (fun acc term => if containsSub term ul then acc - 1000 else acc) s
      ≤ s := by
  induction terms generalizing s with
  | nil => simp
  | cons t ts ih =>
    simp only [List.foldl_cons]
    by_cases h : containsSub t ul = true
    · rw [if_pos h]
      have := ih (s - 1000)
      omega
    · rw [if_neg h]
      exact ih s

/-- One contained skip term already costs 1000. -/
theorem foldl_malus_hit (ul : PyStr) :
    ∀ (terms : List PyStr) (s : Int),
      (∃ t ∈ terms, containsSub t ul = true) →
      terms.foldl (fun acc term => if containsSub term ul then acc - 1000 else acc) s
        ≤ s - 1000 := by
  intro terms
  induction terms with
  | nil =>
    intro s h
    rcases h with ⟨t, ht, _⟩
    exact absurd ht (List.not_mem_nil t)
  | cons t ts ih =>
    intro s h
    simp only [List.foldl_cons]
    by_cases hc : containsSub t ul = true
    · rw [if_pos hc]
      exact foldl_malus_le ul ts (s - 1000)
    · rw [if_neg hc]
      rcases h with ⟨t2, ht2, hc2⟩
      rcases List.mem_cons.mp ht2 with rfl | hmem
      · exact absurd hc2 hc
      · exact ih s ⟨t2, hmem, hc2⟩

/-- A sitemap URL containing at least one skip term scores below -500:
the -1000 malus dominates the +100 news marker and the at most 6 x 10
priority bonus. -/
theorem score_sitemap_skip_lt (url : PyStr)
    (hskip : ∃ t ∈ SKIP_TERMS, containsSub t (pyLower url) = true) :
    score_sitemap url < -500 := by
  unfold score_sitemap
  show SKIP_TERMS.foldl
      (fun acc term => if containsSub term (pyLower url) then acc - 1000 else acc)
      (PRIORITY_TERMS.foldl
        (fun acc term => if containsSub term (pyLower url) then acc + 10 else acc)
        (if containsSub ("sitemap-news".toList) (pyLower url)
              || containsSub ("news-sitemap".toList) (pyLower url)
         then (100:Int) else 0)) < -500
  have hbase :
      (if containsSub ("sitemap-news".toList) (pyLower url)
            || containsSub ("news-sitemap".toList) (pyLower url)
       then (100:Int) else 0) ≤ 100 := by
    split <;> omega
  have h1 := foldl_bonus_le (pyLower url) PRIORITY_TERMS
    (if containsSub ("sitemap-news".toList) (pyLower url)
          || containsSub ("news-sitemap".toList) (pyLower url)
     then (100:Int) else 0)
  have hlen : PRIORITY_TERMS.length = 6 := rfl
  rw [hlen] at h1
  have h2 := foldl_malus_hit (pyLower url) SKIP_TERMS
    (PRIORITY_TERMS.foldl
      (fun acc term => if containsSub term (pyLower url) then acc + 10 else acc)
      (if containsSub ("sitemap-news".toList) (pyLower url)
            || containsSub ("news-sitemap".toList) (pyLower url)
       then (100:Int) else 0)) hskip
  omega

/-- When a DISCOVERY job matching the domain exists, promotion of the
article is a no-op. -/
theorem promote_one_skip (st : PromoState) (url : PyStr)
    (hu2 : url.isEmpty = false) (hd2 : (urlNetloc url).isEmpty = false)
    (hex : st.jobs.any (jobMatches (urlNetloc url)) = true) :
    promote_one st url = st := by
  unfold promote_one
  simp [hu2, hd2, hex]

/-- When no DISCOVERY job matches the domain, promotion adds the new
24-hour DISCOVERY job and creates the Source row when missing. -/
theorem promote_one_create (st : PromoState) (url : PyStr)
    (hu2 : url.isEmpty = false) (hd2 : (urlNetloc url).isEmpty = false)
    (hnone : st.jobs.any (jobMatches (urlNetloc url)) = false) :
    (promote_one st url).jobs
      = st.jobs ++ [⟨"Auto-Discovery: ".toList ++ urlNetloc url,
          urlScheme url ++ "://".toList ++ urlNetloc url,
          PyJobType.discovery, 86400, 5, true⟩]
    ∧ (promote_one st url).sources
      = (if st.sources.any (fun s => s.domain = urlNetloc url) then st.sources
         else st.sources ++ [⟨urlNetloc url,
           urlScheme url ++ "://".toList ++ urlNetloc url ++ "/robots.txt".toList⟩]) := by
  unfold promote_one
  simp [hu2, hd2, hnone]

/-- A database state with one inactive DISCOVERY job monitoring example.com,
separating the code's existence check from the claim's. -/
def promoDemoState : PromoState :=
  ⟨[⟨"Auto-Discovery: example.com".toList, "https://example.com".toList,
     PyJobType.discovery, 86400, 5, false⟩], []⟩

/-! ## Claim theorems -/

/-- C1: `Orchestrator.run` itself catches every phase exception and always
leaves the task row COMPLETED or FAILED — but the Celery wrapper
`generate_content_task` calls `orchestrator.run(user_prompt, max_sources,
model_id, use_judge)` with four positional arguments while `run` accepts
two, so Python raises `TypeError` at the call site, before `run`'s
`try`/`except` can execute: the wrapper leaves the row exactly as it was
(PROCESSING, as created by the API) and the exception escapes uncaught.
The claim's guarantee fails for every invocation through the wrapper. -/
theorem generation_wrapper_arity_bug :
    (∀ (row : TaskRow) (env : RunEnv),
      (generate_content_task row env).1 = row
      ∧ (generate_content_task row env).2
          = Except.error ("TypeError: run takes 3 positional arguments but 5 were given".toList))
    ∧ (∀ (row : TaskRow) (env : RunEnv),
      (orchestrator_run row env).status = TaskStatus.completed
      ∨ (orchestrator_run row env).status = TaskStatus.failed) := by
  constructor
  · intro row env
    exact ⟨rfl, rfl⟩
  · intro row env
    unfold orchestrator_run
    rcases env.audit with e | audit
    · right; rfl
    · simp only []
      rcases h : (if audit.sufficient then Except.ok () else env.gapFill) with e | u
      · right; rfl
      · rcases env.synthesis with e | finalText
        · right; rfl
        · rcases env.usedIds with e | ids
          · right; rfl
          · by_cases hp : (finalText.elim false (fun t => !t.isEmpty) && !ids.isEmpty) = true
            · simp only [hp, if_true]
              rcases env.promote with e | u2
              · right; rfl
              · left; rfl
            · simp only [hp]
              simp only [Bool.not_eq_true] at hp
              simp [hp]

/-- C2: the audit parsing contract.  A null response or one with no
non-blank line yields insufficient with the original prompt as sole query;
a first non-blank line starting case-insensitively with YES yields
sufficient with no queries; otherwise the subsequent non-blank lines of
length greater than 3 are kept, truncated to the first 3 (so NO followed by
four queries keeps exactly the first three), falling back to the original
prompt when none survive. -/
theorem audit_parsing_contract :
    (∀ (userPrompt : PyStr) (response : Option PyStr),
      phase_1_audit userPrompt response = audit_spec userPrompt response)
    ∧ phase_1_audit ("p".toList)
        (some ("NO\nquery one\nquery two\nquery three\nquery four".toList))
      = ⟨false, ["query one".toList, "query two".toList, "query three".toList]⟩ := by
  constructor
  · intro p r
    cases r with
    | none => rfl
    | some s =>
      show (match ((pySplit '\n' s).filter (fun l => !(pyStrip l).isEmpty)).map pyStrip with
            | [] => (⟨false, [p]⟩ : AuditResult)
            | l0 :: rest =>
              if ("YES".toList).isPrefixOf (pyUpper l0) then ⟨true, []⟩
              else
                if ((rest.filter (fun q : PyStr => 3 < q.length)).take 3).isEmpty
                then ⟨false, [p]⟩
                else ⟨false, (rest.filter (fun q : PyStr => 3 < q.length)).take 3⟩)
          = (match ((pySplit '\n' s).map pyStrip).filter (fun l => !l.isEmpty) with
            | [] => (⟨false, [p]⟩ : AuditResult)
            | first :: later =>
              if ("YES".toList).isPrefixOf (pyUpper first) then ⟨true, []⟩
              else
                ⟨false, if ((later.filter (fun q : PyStr => 3 < q.length)).take 3).isEmpty
                        then [p]
                        else (later.filter (fun q : PyStr => 3 < q.length)).take 3⟩)
      rw [← audit_lines_eq]
      cases hL : ((pySplit '\n' s).filter (fun l => !(pyStrip l).isEmpty)).map pyStrip with
      | nil => rfl
      | cons l0 rest =>
        by_cases hy : ("YES".toList).isPrefixOf (pyUpper l0) = true
        · simp only [hy, if_true]
        · simp only [hy]
          by_cases hq : ((rest.filter (fun q : PyStr => 3 < q.length)).take 3).isEmpty = true
          · simp only [hq]
            rfl
          · simp only [hq]
            rfl
  · decide

/-- C3 (amended): the wait loop runs at most 40 polls and exits early at
exactly the first iteration `i` where all dispatched URLs are COMPLETED or
at least one is COMPLETED and more than 20 iterations have elapsed
(`i > 20`, i.e. from the 22nd poll on — not "at least 20" as the claim
words it); the claim's concrete scenario stands: with 5 dispatched URLs and
exactly one COMPLETED from iteration 21 on, the loop terminates at
iteration 21, not 40. -/
theorem gap_fill_wait_loop :
    (∀ (n : Nat) (completed : Nat → Nat),
      gapFillExit n completed = (List.range 40).find? (gapFillBreak n completed))
    ∧ gapFillExit 5 scenarioOneOf5 = some 21 :=
  ⟨gapFillExit_eq_find, by decide⟩

/-- C3 counterexample: with 5 dispatched URLs of which exactly one is
COMPLETED at every poll, the claim's exit rule ("at least one completed and
at least 20 iterations (60 s) have elapsed") fires at iteration 20, where
20 iterations and 60 s of sleeps have elapsed — but the code tests
`i > 20`, does not break there, and exits at iteration 21 instead. -/
theorem gap_fill_wait_counterexample :
    gapFillBreakClaim 5 (fun _ => 1) 20 = true
    ∧ gapFillBreak 5 (fun _ => 1) 20 = false
    ∧ (List.range 40).find? (gapFillBreakClaim 5 (fun _ => 1)) = some 20
    ∧ gapFillExit 5 (fun _ => 1) = some 21 := by
  refine ⟨by decide, by decide, by decide, by decide⟩

/-- C4: the scheduler feedback rule sets the interval to 300 s for urgency
at least 8 with new content (regardless of the prior interval), 1800 s for
urgency 5 to 7 with new content, `max 3600 (interval x 0.95)` for lower
urgency with new content, and `min 86400 (interval x 1.5)` without new
content — so 3600 becomes 5400 and repeated no-content adjustments never
exceed 86400. -/
theorem adjust_schedule_feedback_rule :
    ∀ (urgency : Int) (current : Nat),
      (8 ≤ urgency → adjust_schedule urgency true current = 300)
      ∧ (5 ≤ urgency → urgency < 8 → adjust_schedule urgency true current = 1800)
      ∧ (urgency < 5 → adjust_schedule urgency true current = max 3600 (current * 19 / 20))
      ∧ adjust_schedule urgency false current = min 86400 (current * 3 / 2)
      ∧ adjust_schedule urgency false current ≤ 86400
      ∧ adjust_schedule urgency false 3600 = 5400 := by
  intro u c
  refine ⟨?_, ?_, ?_, rfl, ?_, ?_⟩
  · intro h
    simp [adjust_schedule, h]
  · intro h5 h8
    have h8n : ¬ (8:Int) ≤ u := by omega
    simp [adjust_schedule, h5, h8n]
  · intro h
    have h8n : ¬ (8:Int) ≤ u := by omega
    have h5n : ¬ (5:Int) ≤ u := by omega
    simp [adjust_schedule, h8n, h5n]
  · show min 86400 (c * 3 / 2) ≤ 86400
    exact Nat.min_le_left _ _
  · show min 86400 (3600 * 3 / 2) = 5400
    norm_num

/-- C4 witness: the feedback rule evaluated at concrete urgencies and
intervals. -/
theorem adjust_schedule_feedback_rule_witness :
    ((8:Int) ≤ 9 ∧ adjust_schedule 9 true 7777 = 300)
    ∧ ((5:Int) ≤ 6 ∧ (6:Int) < 8 ∧ adjust_schedule 6 true 7777 = 1800)
    ∧ ((2:Int) < 5 ∧ adjust_schedule 2 true 4000 = max 3600 (4000 * 19 / 20)) :=
  ⟨⟨by decide, (adjust_schedule_feedback_rule 9 7777).1 (by decide)⟩,
   ⟨by decide, by decide,
    (adjust_schedule_feedback_rule 6 7777).2.1 (by decide) (by decide)⟩,
   ⟨by decide, (adjust_schedule_feedback_rule 2 4000).2.2.1 (by decide)⟩⟩

/-- C5 (amended): for an article URL with a non-empty domain, the promotion
phase creates a Source row (when missing) and a new active DISCOVERY
ScheduledJob with `interval_seconds = 86400` and `items_limit = 5` if and
only if no DISCOVERY-type job — active or not — whose URL contains the
domain already exists; promoting the same domain twice never creates a
second job. -/
theorem promotion_domain_check :
    ∀ (st : PromoState) (url : PyStr),
      url ≠ [] → urlNetloc url ≠ [] →
      (st.jobs.any (jobMatches (urlNetloc url)) = true → promote_one st url = st)
      ∧ (st.jobs.any (jobMatches (urlNetloc url)) = false →
          (promote_one st url).jobs
            = st.jobs ++ [⟨"Auto-Discovery: ".toList ++ urlNetloc url,
                urlScheme url ++ "://".toList ++ urlNetloc url,
                PyJobType.discovery, 86400, 5, true⟩]
          ∧ (promote_one st url).sources
            = (if st.sources.any (fun s => s.domain = urlNetloc url) then st.sources
               else st.sources ++ [⟨urlNetloc url,
                 urlScheme url ++ "://".toList ++ urlNetloc url ++ "/robots.txt".toList⟩]))
      ∧ promote_one (promote_one st url) url = promote_one st url := by
  intro st url hu hd
  have hu2 : url.isEmpty = false := by
    cases url with
    | nil => exact absurd rfl hu
    | cons c t => rfl
  have hd2 : (urlNetloc url).isEmpty = false := by
    cases h : urlNetloc url with
    | nil => exact absurd h hd
    | cons c t => rfl
  refine ⟨promote_one_skip st url hu2 hd2, promote_one_create st url hu2 hd2, ?_⟩
  by_cases hex : st.jobs.any (jobMatches (urlNetloc url)) = true
  · rw [promote_one_skip st url hu2 hd2 hex, promote_one_skip st url hu2 hd2 hex]
  · have hnone : st.jobs.any (jobMatches (urlNetloc url)) = false :=
      Bool.eq_false_iff.mpr hex
    have hjobs := (promote_one_create st url hu2 hd2 hnone).1
    have hmatch : jobMatches (urlNetloc url)
        (⟨"Auto-Discovery: ".toList ++ urlNetloc url,
          urlScheme url ++ "://".toList ++ urlNetloc url,
          PyJobType.discovery, 86400, 5, true⟩ : Job) = true := by
      unfold jobMatches
      have hassoc : (urlScheme url ++ "://".toList) ++ urlNetloc url
          = urlScheme url ++ "://".toList ++ urlNetloc url := by
        rw [List.append_assoc]
      rw [← hassoc, containsSub_append]
      simp
    have hany2 : (promote_one st url).jobs.any (jobMatches (urlNetloc url)) = true := by
      apply List.any_eq_true.mpr
      refine ⟨_, ?_, hmatch⟩
      rw [hjobs]
      exact List.mem_append_right _ (List.mem_singleton_self _)
    exact promote_one_skip (promote_one st url) url hu2 hd2 hany2

/-- C5 witness: promoting an article from a fresh database creates exactly
the 24-hour DISCOVERY job and the Source row for its domain. -/
theorem promotion_domain_check_witness :
    ("https://example.com/story/123".toList : PyStr) ≠ []
    ∧ urlNetloc ("https://example.com/story/123".toList) ≠ []
    ∧ (PromoState.mk [] []).jobs.any
        (jobMatches (urlNetloc ("https://example.com/story/123".toList))) = false
    ∧ (promote_one ⟨[], []⟩ ("https://example.com/story/123".toList)).jobs
        = ([] : List Job) ++ [⟨"Auto-Discovery: ".toList
              ++ urlNetloc ("https://example.com/story/123".toList),
            urlScheme ("https://example.com/story/123".toList) ++ "://".toList
              ++ urlNetloc ("https://example.com/story/123".toList),
            PyJobType.discovery, 86400, 5, true⟩] :=
  ⟨by decide, by decide, by decide,
   ((promotion_domain_check ⟨[], []⟩ ("https://example.com/story/123".toList)
      (by decide) (by decide)).2.1 (by decide)).1⟩

/-- C5 counterexample: an inactive DISCOVERY job for example.com blocks
promotion even though no active DISCOVERY job references the domain — the
code's existence query does not filter on `is_active`, so the claim's
"if and only if no active DISCOVERY job exists" creation direction fails. -/
theorem promotion_active_filter_counterexample :
    promoDemoState.jobs.any
      (fun j => j.isActive && jobMatches ("example.com".toList) j) = false
    ∧ urlNetloc ("https://example.com/story/123".toList) = "example.com".toList
    ∧ promote_one promoDemoState ("https://example.com/story/123".toList)
        = promoDemoState
    ∧ (promote_one promoDemoState ("https://example.com/story/123".toList)).jobs.length
        = 1 := by
  refine ⟨by decide, by decide, by decide, by decide⟩

/-- C6: each sitemap URL scores +100 for a news-sitemap marker, +10 per
contained priority term and -1000 per contained skip term; the ranked list
is exactly the candidates scoring above -500 in descending score order, and
any URL containing both "news-sitemap" and a skip term scores below -500
and is excluded. -/
theorem sitemap_scoring_and_ranking :
    ∀ (candidates : List PyStr),
      ((fetch_sitemaps_rank candidates).Perm
          (candidates.filter (fun s => -500 < score_sitemap s))
        ∧ (fetch_sitemaps_rank candidates).Pairwise
            (fun a b => score_sitemap b ≤ score_sitemap a))
      ∧ (∀ url : PyStr,
          containsSub ("news-sitemap".toList) (pyLower url) = true →
          (∃ t ∈ SKIP_TERMS, containsSub t (pyLower url) = true) →
          score_sitemap url < -500 ∧ url ∉ fetch_sitemaps_rank candidates) := by
  intro candidates
  constructor
  · constructor
    · exact (List.perm_insertionSort _ candidates).filter _
    · haveI ht : IsTotal PyStr (fun a b => score_sitemap b ≤ score_sitemap a) :=
        ⟨fun a b => Int.le_total _ _⟩
      haveI htr : IsTrans PyStr (fun a b => score_sitemap b ≤ score_sitemap a) :=
        ⟨fun a b c h1 h2 => le_trans h2 h1⟩
      exact (List.sorted_insertionSort _ candidates).filter _
  · intro url hnews hskip
    have hscore := score_sitemap_skip_lt url hskip
    refine ⟨hscore, ?_⟩
    intro hmem
    have hpred := (List.mem_filter.mp hmem).2
    have : (-500:Int) < score_sitemap url := of_decide_eq_true hpred
    omega

/-- C6 witness: a news sitemap with a skip term scores below -500 and is
dropped from the ranked list. -/
theorem sitemap_scoring_and_ranking_witness :
    containsSub ("news-sitemap".toList)
        (pyLower ("https://x.com/news-sitemap-arabic.xml".toList)) = true
    ∧ (score_sitemap ("https://x.com/news-sitemap-arabic.xml".toList) < -500
       ∧ "https://x.com/news-sitemap-arabic.xml".toList
           ∉ fetch_sitemaps_rank ["https://x.com/sitemap.xml".toList,
               "https://x.com/news-sitemap-arabic.xml".toList]) :=
  ⟨by decide,
   (sitemap_scoring_and_ranking ["https://x.com/sitemap.xml".toList,
     "https://x.com/news-sitemap-arabic.xml".toList]).2
     ("https://x.com/news-sitemap-arabic.xml".toList) (by decide) (by decide)⟩

/-- C7 (amended): re-scraping is idempotent on row identity — with an
existing row for the URL the save updates it in place (same ids, same urls,
same length, so no duplicate and `url` stays unique) returning that row's
id, and every row carrying the updated id has status reset to PENDING.
Under two concurrent first inserts the loser (whose stale read observed no
row) hits the unique constraint, and the generic exception handler rolls
back and returns no row id — it does not re-read the winner's row; the
catch-`IntegrityError`-and-re-read recovery exists for `Source` domain
registration instead. -/
theorem rescrape_idempotent_and_race :
    (∀ (tbl : List Row) (url : PyStr) (payload freshId : Nat) (r : Row),
      findByUrl tbl url = some r →
      (scrape_save tbl url payload freshId (findByUrl tbl url)).2 = some r.id
      ∧ (scrape_save tbl url payload freshId (findByUrl tbl url)).1.map Row.id
          = tbl.map Row.id
      ∧ (scrape_save tbl url payload freshId (findByUrl tbl url)).1.map Row.url
          = tbl.map Row.url
      ∧ (scrape_save tbl url payload freshId (findByUrl tbl url)).1.length = tbl.length
      ∧ (scrape_save tbl url payload freshId (findByUrl tbl url)).1.all
          (fun row => !(row.id = r.id) || (row.aiStatus = PyAIStatus.pending)) = true)
    ∧ (∀ (tbl : List Row) (url : PyStr) (payload freshId : Nat),
        tbl.any (fun row => row.url = url) = true →
        scrape_save tbl url payload freshId none = (tbl, none))
    ∧ (∀ (sources : List Src) (domain robotsUrl : PyStr),
        sources.any (fun s => s.domain = domain) = true →
        register_source sources domain robotsUrl none
          = (sources, sources.find? (fun s => s.domain = domain))) := by
  refine ⟨?_, ?_, ?_⟩
  · intro tbl url payload freshId r hr
    rw [hr]
    unfold scrape_save
    refine ⟨rfl, ?_, ?_, ?_, ?_⟩
    · rw [List.map_map]
      refine List.map_congr_left ?_
      intro row _
      show Row.id (if row.id = r.id then _ else row) = row.id
      split
      · rfl
      · rfl
    · rw [List.map_map]
      refine List.map_congr_left ?_
      intro row _
      show Row.url (if row.id = r.id then _ else row) = row.url
      split
      · rfl
      · rfl
    · exact List.length_map _ _
    · apply List.all_eq_true.mpr
      intro row hrow
      rcases List.mem_map.mp hrow with ⟨x, hx, hfx⟩
      by_cases hxid : x.id = r.id
      · rw [← hfx]
        simp [hxid]
      · rw [← hfx]
        simp [hxid]
  · intro tbl url payload freshId hany
    unfold scrape_save
    simp [hany]
  · intro sources domain robotsUrl hany
    unfold register_source
    simp [hany]

/-- C7 witness: a second scrape of a stored URL updates that row in place,
returning its id with the status reset to PENDING. -/
theorem rescrape_idempotent_and_race_witness :
    findByUrl [⟨1, "u".toList, PyAIStatus.completed, 7⟩] ("u".toList)
      = some ⟨1, "u".toList, PyAIStatus.completed, 7⟩
    ∧ (scrape_save [⟨1, "u".toList, PyAIStatus.completed, 7⟩] ("u".toList) 9 2
        (findByUrl [⟨1, "u".toList, PyAIStatus.completed, 7⟩] ("u".toList))).2
      = some (Row.mk 1 ("u".toList) PyAIStatus.completed 7).id :=
  ⟨by decide,
   ((rescrape_idempotent_and_race.1 [⟨1, "u".toList, PyAIStatus.completed, 7⟩]
      ("u".toList) 9 2 ⟨1, "u".toList, PyAIStatus.completed, 7⟩ (by decide))).1⟩

/-- C7 counterexample: two concurrent first inserts of the same URL — the
winner gets id 1; the loser, re-running the save with its stale empty read
against the winner's table, returns `none` after the `IntegrityError`
rollback rather than re-reading the winner's row (its id). -/
theorem rescrape_race_counterexample :
    scrape_save [] ("u".toList) 7 1 none
      = ([⟨1, "u".toList, PyAIStatus.pending, 7⟩], some 1)
    ∧ scrape_save [⟨1, "u".toList, PyAIStatus.pending, 7⟩] ("u".toList) 9 2 none
      = ([⟨1, "u".toList, PyAIStatus.pending, 7⟩], none)
    ∧ (scrape_save [⟨1, "u".toList, PyAIStatus.pending, 7⟩] ("u".toList) 9 2 none).2
      ≠ some 1 := by
  refine ⟨by decide, by decide, by decide⟩

/-- C8: a scrape blocked by the robots policy, failing to fetch after
retries, or failing to parse returns no row id and leaves the articles
table unchanged, and `enrich_task` invoked with a null article id performs
no work and changes no state — the enrich stage only mutates an article
when the scrape stage produced a row id. -/
theorem scrape_failure_short_circuit :
    ∀ (tbl : List Row) (url : PyStr) (fetched : Except Unit Unit)
      (parsed : Except Unit Nat) (freshId : Nat) (analysis : Option AiData),
      scrape_task tbl url false fetched parsed freshId = (tbl, none)
      ∧ scrape_task tbl url true (Except.error ()) parsed freshId = (tbl, none)
      ∧ scrape_task tbl url true (Except.ok ()) (Except.error ()) freshId = (tbl, none)
      ∧ enrich_task tbl none analysis = (tbl, "Skipped (No ID)".toList) := by
  intro tbl url fetched parsed freshId analysis
  refine ⟨rfl, rfl, rfl, rfl⟩

/-- C9: the waterfall tries the providers in list order, skipping one that
raises (missing credentials, network or HTTP error) or whose text fails
strict-then-lenient JSON extraction; it returns the first successfully
parsed output, and returns null exactly when every provider in the list has
failed. -/
theorem waterfall_first_success_contract :
    ∀ {J : Type} (parse : PyStr → Option J) (attempts : List Attempt),
      analyze_article parse attempts
        = attempts.findSome? (fun a => match a with
            | Attempt.raises => none
            | Attempt.returns raw => clean_json parse raw)
      ∧ (analyze_article parse attempts = none
          ↔ ∀ a ∈ attempts, attemptFailed parse a) := by
  intro J parse attempts
  induction attempts with
  | nil => exact ⟨rfl, by simp [analyze_article]⟩
  | cons a rest ih =>
    cases a with
    | raises =>
      refine ⟨?_, ?_⟩
      · rw [List.findSome?_cons]
        exact ih.1
      · simp only [analyze_article, List.mem_cons]
        rw [ih.2]
        constructor
        · intro h b hb
          rcases hb with hb | hb
          · subst hb; trivial
          · exact h b hb
        · intro h b hb
          exact h b (Or.inr hb)
    | returns raw =>
      by_cases hraw : raw.isEmpty = true
      · have hclean : clean_json parse raw = none := by simp [clean_json, hraw]
        refine ⟨?_, ?_⟩
        · rw [List.findSome?_cons]
          simp only [hclean]
          simp only [analyze_article, hraw]
          simpa using ih.1
        · simp only [analyze_article, hraw]
          simp only [Bool.not_true]
          rw [show (if (false = true) then _ else analyze_article parse rest)
                = analyze_article parse rest from rfl]
          rw [ih.2]
          constructor
          · intro h b hb
            rcases List.mem_cons.mp hb with hb | hb
            · subst hb; exact hclean
            · exact h b hb
          · intro h b hb
            exact h b (List.mem_cons_of_mem _ hb)
      · refine ⟨?_, ?_⟩
        · rw [List.findSome?_cons]
          simp only [analyze_article, hraw, Bool.not_false, if_true]
          cases hc : clean_json parse raw with
          | some j => simp [hc]
          | none => simp [hc, ih.1]
        · simp only [analyze_article, hraw, Bool.not_false, if_true]
          cases hc : clean_json parse raw with
          | some j =>
            simp only []
            constructor
            · intro h
              cases h
            · intro h
              have := h (Attempt.returns raw) (List.mem_cons_self _ _)
              simp [attemptFailed, hc] at this
          | none =>
            rw [ih.2]
            constructor
            · intro h b hb
              rcases List.mem_cons.mp hb with hb | hb
              · subst hb; exact hc
              · exact h b hb
            · intro h b hb
              exact h b (List.mem_cons_of_mem _ hb)

/-- C10: `search_memory` is total at its interface — it always returns a
list, closing its session in every case: the empty list when the embedding
is null or empty or when the similarity query raises, and the query's rows
otherwise. -/
theorem search_memory_total_interface :
    ∀ {R A : Type} (embedRes : Option (List R)) (queryRes : Except Unit (List A)),
      (search_memory embedRes queryRes).2 = true
      ∧ (∃ l, (search_memory embedRes queryRes).1 = Except.ok l)
      ∧ (search_memory (none : Option (List R)) queryRes).1 = Except.ok []
      ∧ (search_memory (some ([] : List R)) queryRes).1 = Except.ok ([] : List A)
      ∧ (search_memory embedRes (Except.error () : Except Unit (List A))).1
          = Except.ok []
      ∧ (∀ (v : List R) (l : List A), v ≠ [] →
          (search_memory (some v) (Except.ok l)).1 = Except.ok l) := by
  intro R A embedRes queryRes
  refine ⟨?_, ?_, rfl, rfl, ?_, ?_⟩
  · unfold search_memory
    rcases embedRes with _ | v
    · rfl
    · by_cases hv : v.isEmpty = true
      · simp [hv]
      · simp only [hv]
        cases queryRes <;> rfl
  · unfold search_memory
    rcases embedRes with _ | v
    · exact ⟨[], rfl⟩
    · by_cases hv : v.isEmpty = true
      · exact ⟨[], by simp [hv]⟩
      · simp only [hv]
        cases queryRes with
        | error e => exact ⟨[], rfl⟩
        | ok l => exact ⟨l, rfl⟩
  · unfold search_memory
    rcases embedRes with _ | v
    · rfl
    · by_cases hv : v.isEmpty = true
      · simp [hv]
      · simp [hv]
  · intro v l hv
    have hne : v.isEmpty = false := by
      cases v with
      | nil => exact absurd rfl hv
      | cons a t => rfl
    simp [search_memory, hne]

/-- C10 witness: a non-empty embedding with a successful query returns the
query's rows. -/
theorem search_memory_total_interface_witness :
    ([0] : List Nat) ≠ []
    ∧ (search_memory (some ([0] : List Nat)) (Except.ok ([5] : List Nat))).1
        = Except.ok [5] :=
  ⟨by decide,
   (search_memory_total_interface (some ([0] : List Nat))
      (Except.ok ([5] : List Nat))).2.2.2.2.2 [0] [5] (by decide)⟩

end NexusScraper
